import Mathlib

/-!
# Verification of the etcd process-lifecycle supervisor

Shallow embedding of `integration.Etcd` (etcd.go) from
kubernetes-sig-testing/frameworks, together with the parts of the
`internal` package it delegates to.  The `internal` package
(`DoDefaulting`, `ProcessState.Start/Stop`, `RenderTemplates`,
`GetEtcdStartMessage`, `EtcdDefaultArgs`, `DoEtcdArgDefaulting`) and the
collaborator interfaces exercised by etcd_test.go (AddressManager,
DataDirManager, BinPathFinder, ProcessStarter, Session) are not part of
the provided sources; those are modelled from the specification, as noted
on each definition.  Collaborators are embedded as result oracles (the
values the fakes of etcd_test.go would return), and every operation also
returns the trace of collaborator calls it performed, so that call-count
properties of the tests become statements about traces.
-/

namespace EtcdSup

/-- A client URL, modelling the slice of Go `net/url.URL` the supervisor
uses: scheme fixed to `http`, plus host and port. -/
structure Url where
  host : String
  port : Nat
deriving Repr, DecidableEq

/-- Rendering of a `Url` to a string, `"http://<host>:<port>"`. -/
def Url.toStr (u : Url) : String :=
  "http://" ++ u.host ++ ":" ++ toString u.port

/-- One piece of an argument template: literal text, the URL placeholder,
the data-dir placeholder, or an unresolved placeholder (which makes
rendering fail).  Modelled from the spec: the ArgTemplateRenderer performs
pure substitution of named placeholders (URL, data dir) and fails with a
TemplateError on unknown placeholders. -/
inductive TmplPiece
  | lit (s : String)
  | urlVar
  | dataDirVar
  | unknownVar (name : String)
deriving Repr, DecidableEq

/-- An argument template is a sequence of pieces. -/
abbrev Tmpl := List TmplPiece

/-- Substitute one template piece. -/
def renderPiece (url dir : String) : TmplPiece → Except String String
  | .lit s => .ok s
  | .urlVar => .ok url
  | .dataDirVar => .ok dir
  | .unknownVar n => .error ("unknown placeholder: " ++ n)

/-- Render one template by concatenating its substituted pieces. -/
def renderOne (url dir : String) : Tmpl → Except String String
  | [] => .ok ""
  | [p] => renderPiece url dir p
  | p :: q :: rest =>
    match renderPiece url dir p, renderOne url dir (q :: rest) with
    | .error m, _ => .error m
    | .ok _, .error m => .error m
    | .ok s, .ok r => .ok (s ++ r)

/-- Modelled from the spec: `internal.RenderTemplates` renders every
argument template against the resolved URL and data dir, failing on the
first template error. -/
def RenderTemplates (ts : List Tmpl) (url dir : String) :
    Except String (List String) :=
  match ts with
  | [] => .ok []
  | t :: rest =>
    match renderOne url dir t, RenderTemplates rest url dir with
    | .error m, _ => .error m
    | .ok _, .error m => .error m
    | .ok s, .ok ss => .ok (s :: ss)

/-- Modelled from the spec: the internal default argument templates for
etcd — the advertise/listen client-URL flags rendered from the allocated
URL, plus the data-directory flag rendered from the data dir. -/
def EtcdDefaultArgsInternal : List Tmpl :=
  [ [.lit "--advertise-client-urls=", .urlVar],
    [.lit "--listen-client-urls=", .urlVar],
    [.lit "--data-dir=", .dataDirVar] ]

/-- Modelled from the spec: `internal.DoEtcdArgDefaulting` merges
user-supplied extra arguments with the internal defaults; with no extra
arguments the internal defaults are used as-is. -/
def DoEtcdArgDefaulting (args : List Tmpl) : List Tmpl :=
  if args.isEmpty then EtcdDefaultArgsInternal else EtcdDefaultArgsInternal ++ args

/-- Modelled from the spec: a Session is the live handle to one spawned
OS process: its captured combined output (as observed within
StartTimeout) and the OS-reported exit status it will have after exit. -/
structure Session where
  output : String
  finalExitCode : Int
deriving Repr, DecidableEq

/-- The injectable collaborators of the supervisor, embedded as result
oracles: each field holds the result the corresponding collaborator call
would return (as the test fakes of etcd_test.go are programmed with). -/
structure Collab where
  findPath : Except String String
  createDir : Except String String
  initAddress : Except String (Nat × String)
  destroyDir : Except String Unit
  hostResult : Except String String
  portResult : Except String Nat
  starter : String → List String → Except String Session

/-- One collaborator call observed during an operation.  `spawn` records
an invocation of the process starter (its `ok` flag tells whether the
starter produced a session). -/
inductive Ev
  | find (name : String)
  | create
  | initAddress (preferredHost : String)
  | spawn (path : String) (args : List String) (ok : Bool)
  | terminate
  | wait
  | exitCodeQuery
  | destroy
deriving Repr, DecidableEq

/-- `internal.DefaultedProcessInput`: the immutable resolved configuration
computed once per Start. -/
structure DefaultedProcessInput where
  url : Url
  dir : String
  path : String
  startTimeout : Nat
  stopTimeout : Nat
deriving Repr, DecidableEq

/-- `internal.ProcessState`: the per-Start record. -/
structure ProcessState where
  input : DefaultedProcessInput
  startMessage : String
  args : List String
  session : Option Session
  reportedExitCode : Option Int
deriving Repr, DecidableEq

/-- The zero value `&internal.ProcessState{}` assigned at Start entry. -/
def ProcessState.empty : ProcessState :=
  { input := { url := { host := "", port := 0 }, dir := "", path := "",
               startTimeout := 0, stopTimeout := 0 },
    startMessage := "", args := [], session := none, reportedExitCode := none }

/-- The slice of `cluster.Config` the etcd supervisor reads:
`ClusterConfig.Etcd.DataDir` and the extra argument templates
(`flattenArgs(e.ClusterConfig.Etcd.ExtraArgs)` is modelled as this list
directly). -/
structure ClusterConfig where
  dataDir : String
  extraArgs : List Tmpl
deriving Repr, DecidableEq

/-- The `Etcd` struct of etcd.go.  `out` and `err` stand in for the
opaque `io.Writer` fields `Out`/`Err` (only their identity matters for
frame properties). -/
structure Etcd where
  url : Option Url
  path : String
  clusterConfig : ClusterConfig
  startTimeout : Nat
  stopTimeout : Nat
  out : String
  err : String
  processState : Option ProcessState
deriving Repr, DecidableEq

/-- Default start/stop timeout (20 seconds), from the doc comment of
`Etcd.StartTimeout`/`StopTimeout`. -/
def defaultTimeout : Nat := 20

/-- Events emitted by the path-resolution stage. -/
def findEvs (name path : String) : List Ev :=
  if path = "" then [Ev.find name] else []

/-- Events emitted by the data-dir creation stage. -/
def createEvs (dataDir : String) : List Ev :=
  if dataDir = "" then [Ev.create] else []

/-- Events emitted by the address-allocation stage. -/
def addrEvs (url : Option Url) : List Ev :=
  match url with
  | some _ => []
  | none => [Ev.initAddress "localhost"]

/-- Convert an address allocation result `(port, host)` into a URL. -/
def urlFromAddr : Except String (Nat × String) → Except String Url
  | .error m => .error m
  | .ok (p, h) => .ok { host := h, port := p }

/-- Modelled from the spec: `internal.DoDefaulting` resolves the binary
path via the BinPathFinder when `path` is empty, creates a data directory
via the DataDirManager when none is configured, allocates a client
address via the AddressManager (preferred host `localhost`) when no URL
is configured, and defaults both timeouts to 20 seconds, aborting at the
first failing stage (path, then data dir, then address). -/
def DoDefaulting (c : Collab) (name : String) (url : Option Url)
    (dataDir path : String) (startTO stopTO : Nat) :
    Except String DefaultedProcessInput × List Ev :=
  match (if path = "" then c.findPath else .ok path) with
  | .error m => (.error m, findEvs name path)
  | .ok p =>
    match (if dataDir = "" then c.createDir else .ok dataDir) with
    | .error m => (.error m, findEvs name path ++ createEvs dataDir)
    | .ok d =>
      match (match url with
             | some u => Except.ok u
             | none => urlFromAddr c.initAddress) with
      | .error m =>
        (.error m, findEvs name path ++ createEvs dataDir ++ addrEvs url)
      | .ok u =>
        (.ok { url := u, dir := d, path := p,
               startTimeout := if startTO = 0 then defaultTimeout else startTO,
               stopTimeout := if stopTO = 0 then defaultTimeout else stopTO },
         findEvs name path ++ createEvs dataDir ++ addrEvs url)

/-- Modelled from the spec: `internal.GetEtcdStartMessage` — the
binary-specific readiness marker, the literal substring
`"serving insecure client requests on <host>:<port>"`. -/
def GetEtcdStartMessage (u : Url) : String :=
  "serving insecure client requests on " ++ u.host ++ ":" ++ toString u.port

/-- Whether `needle` starts `hay`. -/
def charsPrefix : List Char → List Char → Bool
  | [], _ => true
  | _ :: _, [] => false
  | a :: as, b :: bs => (a == b) && charsPrefix as bs

/-- Whether `needle` occurs contiguously inside `hay`. -/
def charsInfix (needle : List Char) : List Char → Bool
  | [] => charsPrefix needle []
  | b :: bs => charsPrefix needle (b :: bs) || charsInfix needle bs

/-- Whether `marker` occurs as a substring of `s`. -/
def containsSub (marker s : String) : Bool :=
  charsInfix marker.data s.data

/-- The ReadinessTimeoutError message. -/
def readinessTimeoutMessage : String :=
  "timeout waiting for process to start serving"

/-- Modelled from the spec: `internal.ProcessState.Start` — spawn the
process through the injectable starter, capturing its combined output,
then block until the readiness marker appears in the captured output;
when it does not appear within StartTimeout (embedded as: the marker is
not a substring of the output observed within the timeout), return a
ReadinessTimeoutError while the spawned process is left running (the
session stays owned). -/
def ProcessState.startProc (c : Collab) (ps : ProcessState) :
    Except String Unit × ProcessState × List Ev :=
  match c.starter ps.input.path ps.args with
  | .error m => (.error m, ps, [Ev.spawn ps.input.path ps.args false])
  | .ok s =>
    if containsSub ps.startMessage s.output then
      (.ok (), { ps with session := some s },
       [Ev.spawn ps.input.path ps.args true])
    else
      (.error readinessTimeoutMessage, { ps with session := some s },
       [Ev.spawn ps.input.path ps.args true])

/-- `Etcd.Start` from etcd.go: install a fresh ProcessState, run
defaulting, record the readiness marker, write the defaulted URL, path
and timeouts back into the public fields, render the (defaulted)
argument templates, and hand off to `ProcessState.startProc`; each
failure aborts immediately and is returned as-is. -/
def Etcd.start (c : Collab) (e : Etcd) : Except String Unit × Etcd × List Ev :=
  match (DoDefaulting c "etcd" e.url e.clusterConfig.dataDir e.path
      e.startTimeout e.stopTimeout).1 with
  | .error m =>
    (.error m, { e with processState := some ProcessState.empty },
     (DoDefaulting c "etcd" e.url e.clusterConfig.dataDir e.path
       e.startTimeout e.stopTimeout).2)
  | .ok input =>
    match RenderTemplates (DoEtcdArgDefaulting e.clusterConfig.extraArgs)
        input.url.toStr input.dir with
    | .error m =>
      (.error m,
       { e with url := some input.url, path := input.path,
                startTimeout := input.startTimeout,
                stopTimeout := input.stopTimeout,
                processState := some
                  { ProcessState.empty with
                    input := input,
                    startMessage := GetEtcdStartMessage input.url } },
       (DoDefaulting c "etcd" e.url e.clusterConfig.dataDir e.path
         e.startTimeout e.stopTimeout).2)
    | .ok rendered =>
      ((ProcessState.startProc c
          { input := input, startMessage := GetEtcdStartMessage input.url,
            args := rendered, session := none, reportedExitCode := none }).1,
       { e with url := some input.url, path := input.path,
                startTimeout := input.startTimeout,
                stopTimeout := input.stopTimeout,
                processState := some
                  (ProcessState.startProc c
                    { input := input,
                      startMessage := GetEtcdStartMessage input.url,
                      args := rendered, session := none,
                      reportedExitCode := none }).2.1 },
       (DoDefaulting c "etcd" e.url e.clusterConfig.dataDir e.path
         e.startTimeout e.stopTimeout).2 ++
       (ProcessState.startProc c
          { input := input, startMessage := GetEtcdStartMessage input.url,
            args := rendered, session := none,
            reportedExitCode := none }).2.2)

/-- Modelled from the spec: `internal.ProcessState.Stop` — a safe no-op
when no session was ever produced; otherwise send the termination signal,
wait for exit, query the final exit code, destroy the data directory
(its error is surfaced as Stop's result), and clear the session so a
second Stop is a no-op. -/
def ProcessState.stopProc (c : Collab) (ps : ProcessState) :
    Except String Unit × ProcessState × List Ev :=
  match ps.session with
  | none => (.ok (), ps, [])
  | some s =>
    match c.destroyDir with
    | .error m =>
      (.error m,
       { ps with session := none, reportedExitCode := some s.finalExitCode },
       [Ev.terminate, Ev.wait, Ev.exitCodeQuery, Ev.destroy])
    | .ok _ =>
      (.ok (),
       { ps with session := none, reportedExitCode := some s.finalExitCode },
       [Ev.terminate, Ev.wait, Ev.exitCodeQuery, Ev.destroy])

/-- `Etcd.Stop` from etcd.go: delegate to the process state's Stop. -/
def Etcd.stop (c : Collab) (e : Etcd) : Except String Unit × Etcd × List Ev :=
  match e.processState with
  | none => (.ok (), e, [])
  | some ps =>
    ((ProcessState.stopProc c ps).1,
     { e with processState := some (ProcessState.stopProc c ps).2.1 },
     (ProcessState.stopProc c ps).2.2)

/-- Modelled from the spec: the supervisor's `URL()` query — ask the
AddressManager for its host and its port independently and assemble
`"http://<host>:<port>"`, propagating either failure unchanged. -/
def Etcd.urlQuery (c : Collab) (_e : Etcd) : Except String String :=
  match c.hostResult with
  | .error m => .error m
  | .ok h =>
    match c.portResult with
    | .error m => .error m
    | .ok p => .ok ("http://" ++ h ++ ":" ++ toString p)

/-- The session currently owned by a supervisor, if any. -/
def sessionOf (e : Etcd) : Option Session :=
  match e.processState with
  | none => none
  | some ps => ps.session

/-- The exit code the supervisor reports after Stop, if any. -/
def reportedExit (e : Etcd) : Option Int :=
  match e.processState with
  | none => none
  | some ps => ps.reportedExitCode

/-- Predicate: the event is an invocation of the process starter. -/
def Ev.isStarterCall : Ev → Bool
  | .spawn _ _ _ => true
  | _ => false

/-- Predicate: the event is a successful spawn (a process came to life). -/
def Ev.isSpawnOk : Ev → Bool
  | .spawn _ _ ok => ok
  | _ => false

/-- Predicate: the event is a Terminate call. -/
def Ev.isTerm : Ev → Bool
  | .terminate => true
  | _ => false

/-- Predicate: the event is a Wait call. -/
def Ev.isWait : Ev → Bool
  | .wait => true
  | _ => false

/-- Predicate: the event is an ExitCode query. -/
def Ev.isExitQuery : Ev → Bool
  | .exitCodeQuery => true
  | _ => false

/-- Predicate: the event is a data-directory Destroy call. -/
def Ev.isDestroy : Ev → Bool
  | .destroy => true
  | _ => false

/-- Number of process-starter invocations in a trace. -/
def starterCalls (evs : List Ev) : Nat := (evs.filter Ev.isStarterCall).length

/-- Number of successful spawns in a trace. -/
def spawnCount (evs : List Ev) : Nat := (evs.filter Ev.isSpawnOk).length

/-- Number of Terminate calls in a trace. -/
def termCount (evs : List Ev) : Nat := (evs.filter Ev.isTerm).length

/-- Number of Wait calls in a trace. -/
def waitCount (evs : List Ev) : Nat := (evs.filter Ev.isWait).length

/-- Number of ExitCode queries in a trace. -/
def exitQueryCount (evs : List Ev) : Nat := (evs.filter Ev.isExitQuery).length

/-- Number of Destroy calls in a trace. -/
def destroyCount (evs : List Ev) : Nat := (evs.filter Ev.isDestroy).length

/-- Go's `append([]string{}, xs...)`: build a fresh slice by appending the
elements of `xs` one by one to an empty slice, which allocates an
independent backing array. -/
def copySlice (l : List Tmpl) : List Tmpl :=
  l.foldl (fun acc x => acc ++ [x]) []

/-- `EtcdDefaultArgs` from etcd.go: the exported copy of the internal
default arguments (`append([]string{}, internal.EtcdDefaultArgs...)`). -/
def EtcdDefaultArgs : List Tmpl := copySlice EtcdDefaultArgsInternal

/-- The package-level slice state: the internal default-args slice and the
exported one.  Because the exported slice was produced by `append` onto a
fresh empty slice, the two have independent backing arrays, so an update
to one is an update to that field only. -/
structure PkgArgs where
  internalArgs : List Tmpl
  exportedArgs : List Tmpl
deriving Repr, DecidableEq

/-- The package state at initialization. -/
def initialPkgArgs : PkgArgs :=
  { internalArgs := EtcdDefaultArgsInternal, exportedArgs := EtcdDefaultArgs }

/-- Mutating element `i` of the exported `EtcdDefaultArgs` slice. -/
def PkgArgs.setExported (p : PkgArgs) (i : Nat) (v : Tmpl) : PkgArgs :=
  { p with exportedArgs := p.exportedArgs.set i v }

/-- A call on the supervisor's public lifecycle API. -/
inductive Op
  | start
  | stop
deriving Repr, DecidableEq

/-- Run one lifecycle call against fixed collaborator results, keeping
the new supervisor state and the trace of collaborator calls. -/
def runOp (c : Collab) (e : Etcd) : Op → Etcd × List Ev
  | .start => ((e.start c).2.1, (e.start c).2.2)
  | .stop => ((e.stop c).2.1, (e.stop c).2.2)

/-- Run a sequence of lifecycle calls, concatenating the traces. -/
def runSeq (c : Collab) (e : Etcd) : List Op → Etcd × List Ev
  | [] => (e, [])
  | op :: rest =>
    ((runSeq c (runOp c e op).1 rest).1,
     (runOp c e op).2 ++ (runSeq c (runOp c e op).1 rest).2)

/-- `stopSepAux b ops` holds when `ops` never performs a second Start
without a Stop in between; `b` records whether a Start has already
happened since the last Stop. -/
def stopSepAux : Bool → List Op → Bool
  | _, [] => true
  | true, Op.start :: _ => false
  | false, Op.start :: rest => stopSepAux true rest
  | _, Op.stop :: rest => stopSepAux false rest

/-- A call sequence in which every Start after the first is separated
from the previous Start by a Stop. -/
def stopSeparated (ops : List Op) : Bool := stopSepAux false ops

/-- Whether the supervisor currently owns a live session. -/
def sessLive (e : Etcd) : Bool := (sessionOf e).isSome

/-- The supervisor as a caller first sees it: no field configured, no
process state. -/
def initialEtcd : Etcd :=
  { url := none, path := "", clusterConfig := { dataDir := "", extraArgs := [] },
    startTimeout := 0, stopTimeout := 0, out := "", err := "",
    processState := none }

/-! ## Concrete collaborator configurations for witnesses -/

/-- Collaborator results where every stage succeeds: the spawned process
prints the etcd readiness marker for the allocated address `h:1` and
later exits with status 143 (the values of etcd_test.go). -/
def cAllGood : Collab :=
  { findPath := .ok "/path/to/some/etcd", createDir := .ok "/tmp/d",
    initAddress := .ok (1, "h"), destroyDir := .ok (),
    hostResult := .ok "the.host.for.etcd", portResult := .ok 6789,
    starter := fun _ _ =>
      .ok { output := "serving insecure client requests on h:1",
            finalExitCode := 143 } }

/-- Collaborators whose AddressManager fails its host query. -/
def cHostErr : Collab := { cAllGood with hostResult := .error "bam!" }

/-- Collaborators whose AddressManager fails its port query. -/
def cPortErr : Collab := { cAllGood with portResult := .error "zort" }

/-! ## Theorems -/

/-- C4: For every supervisor whose Start was never called or never
produced a Session, Stop is a safe no-op: it returns no error and
performs zero Terminate, Wait, or ExitCode calls. -/
theorem etcd_stop_noop_without_session (c : Collab) (e : Etcd)
    (h : sessionOf e = none) :
    (e.stop c).1 = Except.ok () ∧ (e.stop c).2.2 = []
    ∧ termCount (e.stop c).2.2 = 0 ∧ waitCount (e.stop c).2.2 = 0
    ∧ exitQueryCount (e.stop c).2.2 = 0 := by
  unfold sessionOf at h
  cases hps : e.processState with
  | none =>
    simp [Etcd.stop, hps, termCount, waitCount, exitQueryCount]
  | some ps =>
    rw [hps] at h
    simp only [] at h
    simp [Etcd.stop, hps, ProcessState.stopProc, h, termCount, waitCount,
      exitQueryCount]

/-- Witness for C4: stopping a never-started supervisor. -/
theorem etcd_stop_noop_without_session_witness :
    (initialEtcd.stop cAllGood).1 = Except.ok ()
    ∧ (initialEtcd.stop cAllGood).2.2 = []
    ∧ termCount (initialEtcd.stop cAllGood).2.2 = 0
    ∧ waitCount (initialEtcd.stop cAllGood).2.2 = 0
    ∧ exitQueryCount (initialEtcd.stop cAllGood).2.2 = 0 :=
  etcd_stop_noop_without_session cAllGood initialEtcd rfl

/-- C5: Stop is idempotent — whatever a first Stop did, a second Stop
returns no error and performs no Terminate, Wait, ExitCode, or Destroy
calls at all. -/
theorem etcd_stop_idempotent (c c2 : Collab) (e : Etcd) :
    ((e.stop c).2.1.stop c2).1 = Except.ok ()
    ∧ ((e.stop c).2.1.stop c2).2.2 = []
    ∧ termCount ((e.stop c).2.1.stop c2).2.2 = 0
    ∧ waitCount ((e.stop c).2.1.stop c2).2.2 = 0
    ∧ exitQueryCount ((e.stop c).2.1.stop c2).2.2 = 0
    ∧ destroyCount ((e.stop c).2.1.stop c2).2.2 = 0 := by
  cases hps : e.processState with
  | none =>
    simp [Etcd.stop, hps, termCount, waitCount, exitQueryCount, destroyCount]
  | some ps =>
    cases hs : ps.session with
    | none =>
      simp [Etcd.stop, ProcessState.stopProc, hps, hs, termCount, waitCount,
        exitQueryCount, destroyCount]
    | some s =>
      cases hd : c.destroyDir with
      | error m =>
        simp [Etcd.stop, ProcessState.stopProc, hps, hs, hd, termCount,
          waitCount, exitQueryCount, destroyCount]
      | ok u =>
        simp [Etcd.stop, ProcessState.stopProc, hps, hs, hd, termCount,
          waitCount, exitQueryCount, destroyCount]

/-- C7: URL() returns `"http://<host>:<port>"` when both AddressManager
queries succeed, and propagates the failing query's error unchanged
otherwise. -/
theorem etcd_url_query (c : Collab) (e : Etcd) :
    (∀ h p, c.hostResult = Except.ok h → c.portResult = Except.ok p →
      e.urlQuery c = Except.ok ("http://" ++ h ++ ":" ++ toString p))
    ∧ (∀ m, c.hostResult = Except.error m → e.urlQuery c = Except.error m)
    ∧ (∀ h m, c.hostResult = Except.ok h → c.portResult = Except.error m →
      e.urlQuery c = Except.error m) := by
  refine ⟨fun h p hh hp => ?_, fun m hh => ?_, fun h m hh hp => ?_⟩
  · simp [Etcd.urlQuery, hh, hp]
  · simp [Etcd.urlQuery, hh]
  · simp [Etcd.urlQuery, hh, hp]

/-- Witness for C7: the concrete host/port and failure scenarios of
etcd_test.go. -/
theorem etcd_url_query_witness :
    initialEtcd.urlQuery cAllGood = Except.ok "http://the.host.for.etcd:6789"
    ∧ initialEtcd.urlQuery cHostErr = Except.error "bam!"
    ∧ initialEtcd.urlQuery cPortErr = Except.error "zort" :=
  ⟨(etcd_url_query cAllGood initialEtcd).1 "the.host.for.etcd" 6789 rfl rfl,
   (etcd_url_query cHostErr initialEtcd).2.1 "bam!" rfl,
   (etcd_url_query cPortErr initialEtcd).2.2 "the.host.for.etcd" "zort" rfl rfl⟩

/-- C10: the exported `EtcdDefaultArgs` equals the internal default
argument list element for element, and mutating an element of the
exported slice leaves the internal defaults — and hence the argument list
every subsequent Start renders from — unchanged. -/
theorem etcd_default_args_copy :
    EtcdDefaultArgs = EtcdDefaultArgsInternal
    ∧ (∀ i v, (initialPkgArgs.setExported i v).internalArgs
        = EtcdDefaultArgsInternal)
    ∧ (∀ i v, DoEtcdArgDefaulting []
        = (initialPkgArgs.setExported i v).internalArgs) :=
  ⟨rfl, fun _ _ => rfl, fun _ _ => rfl⟩

/-- Helper: stopping a supervisor that owns a live session performs
exactly the Terminate, Wait, ExitCode and Destroy calls, in that order,
and records the session's OS-reported exit status. -/
lemma stop_on_live (c2 : Collab) (e1 : Etcd) (s : Session)
    (h : sessionOf e1 = some s) :
    (e1.stop c2).2.2 = [Ev.terminate, Ev.wait, Ev.exitCodeQuery, Ev.destroy]
    ∧ reportedExit (e1.stop c2).2.1 = some s.finalExitCode := by
  unfold sessionOf at h
  cases hps : e1.processState with
  | none => rw [hps] at h; simp at h
  | some ps =>
    rw [hps] at h
    simp only [] at h
    cases hd : c2.destroyDir with
    | error m =>
      simp [Etcd.stop, ProcessState.stopProc, hps, h, hd, reportedExit]
    | ok u =>
      simp [Etcd.stop, ProcessState.stopProc, hps, h, hd, reportedExit]

/-- C3: after a successful Start, the first Stop performs exactly one
Terminate, one Wait and one data-directory Destroy, and the exit code
reported afterwards is the spawned process's OS-reported exit status. -/
theorem etcd_stop_after_start (c c2 : Collab) (e : Etcd) (s : Session)
    (_h1 : (e.start c).1 = Except.ok ())
    (h2 : sessionOf (e.start c).2.1 = some s) :
    termCount ((e.start c).2.1.stop c2).2.2 = 1
    ∧ waitCount ((e.start c).2.1.stop c2).2.2 = 1
    ∧ destroyCount ((e.start c).2.1.stop c2).2.2 = 1
    ∧ reportedExit ((e.start c).2.1.stop c2).2.1 = some s.finalExitCode := by
  obtain ⟨hevs, hrep⟩ := stop_on_live c2 ((e.start c).2.1) s h2
  refine ⟨?_, ?_, ?_, hrep⟩ <;> rw [hevs] <;> rfl

/-- The session the all-good collaborators produce: it printed the
readiness marker for address `h:1` and exits with status 143. -/
def sessAllGood : Session :=
  { output := "serving insecure client requests on h:1", finalExitCode := 143 }

/-- Witness for C3: a concrete successful Start followed by Stop. -/
theorem etcd_stop_after_start_witness :
    termCount ((initialEtcd.start cAllGood).2.1.stop cAllGood).2.2 = 1
    ∧ waitCount ((initialEtcd.start cAllGood).2.1.stop cAllGood).2.2 = 1
    ∧ destroyCount ((initialEtcd.start cAllGood).2.1.stop cAllGood).2.2 = 1
    ∧ reportedExit ((initialEtcd.start cAllGood).2.1.stop cAllGood).2.1
        = some (143 : Int) :=
  etcd_stop_after_start cAllGood cAllGood initialEtcd sessAllGood rfl rfl

/-- C9: whenever defaulting succeeds, Start overwrites the public URL,
Path, StartTimeout and StopTimeout fields with the defaulted values —
whatever happens afterwards — and never touches ClusterConfig, Out or
Err. -/
theorem etcd_start_field_writeback (c : Collab) (e : Etcd) :
    ((e.start c).2.1.clusterConfig = e.clusterConfig
      ∧ (e.start c).2.1.out = e.out ∧ (e.start c).2.1.err = e.err)
    ∧ (∀ input,
        (DoDefaulting c "etcd" e.url e.clusterConfig.dataDir e.path
          e.startTimeout e.stopTimeout).1 = Except.ok input →
        (e.start c).2.1.url = some input.url
        ∧ (e.start c).2.1.path = input.path
        ∧ (e.start c).2.1.startTimeout = input.startTimeout
        ∧ (e.start c).2.1.stopTimeout = input.stopTimeout) := by
  constructor
  · cases hdd : (DoDefaulting c "etcd" e.url e.clusterConfig.dataDir e.path
        e.startTimeout e.stopTimeout).1 with
    | error m => simp [Etcd.start, hdd]
    | ok input =>
      cases hr : RenderTemplates (DoEtcdArgDefaulting e.clusterConfig.extraArgs)
          input.url.toStr input.dir with
      | error m => simp [Etcd.start, hdd, hr]
      | ok rendered => simp [Etcd.start, hdd, hr]
  · intro input hdd
    cases hr : RenderTemplates (DoEtcdArgDefaulting e.clusterConfig.extraArgs)
        input.url.toStr input.dir with
    | error m => simp [Etcd.start, hdd, hr]
    | ok rendered => simp [Etcd.start, hdd, hr]

/-- The defaulted input the all-good collaborators produce from a fresh
supervisor. -/
def inputAllGood : DefaultedProcessInput :=
  { url := { host := "h", port := 1 }, dir := "/tmp/d",
    path := "/path/to/some/etcd", startTimeout := 20, stopTimeout := 20 }

/-- Witness for C9: concrete field write-back after a defaulted Start. -/
theorem etcd_start_field_writeback_witness :
    ((initialEtcd.start cAllGood).2.1.clusterConfig = initialEtcd.clusterConfig
      ∧ (initialEtcd.start cAllGood).2.1.out = initialEtcd.out
      ∧ (initialEtcd.start cAllGood).2.1.err = initialEtcd.err)
    ∧ ((initialEtcd.start cAllGood).2.1.url = some inputAllGood.url
      ∧ (initialEtcd.start cAllGood).2.1.path = inputAllGood.path
      ∧ (initialEtcd.start cAllGood).2.1.startTimeout
          = inputAllGood.startTimeout
      ∧ (initialEtcd.start cAllGood).2.1.stopTimeout
          = inputAllGood.stopTimeout) :=
  ⟨(etcd_start_field_writeback cAllGood initialEtcd).1,
   (etcd_start_field_writeback cAllGood initialEtcd).2 inputAllGood rfl⟩

/-- C2: once Start reaches the spawn stage and the starter produces a
session, Start returns no error exactly when the binary-specific
readiness marker appears in the captured output (within StartTimeout,
embedded as the output observed within the timeout); when the marker does
not appear, Start returns the readiness-timeout error while the spawned
process is left running (its session stays owned). -/
theorem etcd_start_readiness (c : Collab) (e : Etcd)
    (input : DefaultedProcessInput) (rendered : List String) (s : Session)
    (hdd : (DoDefaulting c "etcd" e.url e.clusterConfig.dataDir e.path
        e.startTimeout e.stopTimeout).1 = Except.ok input)
    (hr : RenderTemplates (DoEtcdArgDefaulting e.clusterConfig.extraArgs)
        input.url.toStr input.dir = Except.ok rendered)
    (hs : c.starter input.path rendered = Except.ok s) :
    (containsSub (GetEtcdStartMessage input.url) s.output = true →
      (e.start c).1 = Except.ok ())
    ∧ (containsSub (GetEtcdStartMessage input.url) s.output = false →
      (e.start c).1 = Except.error readinessTimeoutMessage
      ∧ sessionOf (e.start c).2.1 = some s) := by
  constructor
  · intro hm
    simp [Etcd.start, hdd, hr, ProcessState.startProc, hs, hm]
  · intro hm
    simp [Etcd.start, hdd, hr, ProcessState.startProc, hs, hm, sessionOf]

/-- The argument list the all-good collaborators make Start render. -/
def renderedAllGood : List String :=
  ["--advertise-client-urls=http://h:1", "--listen-client-urls=http://h:1",
   "--data-dir=/tmp/d"]

/-- Collaborators whose spawned process never prints the readiness
marker. -/
def cNoMarker : Collab :=
  { cAllGood with
    starter := fun _ _ => .ok { output := "nothing to see here", finalExitCode := 0 } }

/-- The session the marker-less collaborators produce. -/
def sessNoMarker : Session :=
  { output := "nothing to see here", finalExitCode := 0 }

/-- Witness for C2: a Start that sees the marker succeeds; one that does
not times out and keeps the session. -/
theorem etcd_start_readiness_witness :
    (initialEtcd.start cAllGood).1 = Except.ok ()
    ∧ ((initialEtcd.start cNoMarker).1 = Except.error readinessTimeoutMessage
      ∧ sessionOf (initialEtcd.start cNoMarker).2.1 = some sessNoMarker) :=
  ⟨(etcd_start_readiness cAllGood initialEtcd inputAllGood renderedAllGood
      sessAllGood rfl rfl rfl).1 rfl,
   (etcd_start_readiness cNoMarker initialEtcd inputAllGood renderedAllGood
      sessNoMarker (by rfl) (by rfl) (by rfl)).2 (by rfl)⟩

/-- String concatenation is associative. -/
lemma strAppend_assoc (a b c : String) : a ++ b ++ c = a ++ (b ++ c) := by
  apply String.ext
  simp [String.data_append, List.append_assoc]

/-- Concatenating a flag prefix with a rendered URL yields the literal
flag string of the spec. -/
lemma flag_url_str (flag flagH : String) (hst : String) (p : Nat)
    (hf : flag ++ "http://" = flagH) :
    flag ++ Url.toStr { host := hst, port := p }
      = flagH ++ hst ++ ":" ++ toString p := by
  simp only [Url.toStr, ← strAppend_assoc]
  rw [hf]

/-- Membership in the path-resolution trace. -/
lemma mem_findEvs (name path' : String) (ev : Ev) (hm : ev ∈ findEvs name path') :
    ev = Ev.find name := by
  unfold findEvs at hm
  split at hm <;> simp_all

/-- Membership in the data-dir creation trace. -/
lemma mem_createEvs (dataDir : String) (ev : Ev) (hm : ev ∈ createEvs dataDir) :
    ev = Ev.create := by
  unfold createEvs at hm
  split at hm <;> simp_all

/-- Membership in the address-allocation trace. -/
lemma mem_addrEvs (url : Option Url) (ev : Ev) (hm : ev ∈ addrEvs url) :
    ev = Ev.initAddress "localhost" := by
  unfold addrEvs at hm
  cases url <;> simp_all

/-- Every event of the defaulting stage is a find, create, or address
allocation. -/
lemma dd_ev_shape (c : Collab) (name : String) (url : Option Url)
    (dataDir path' : String) (s1 s2 : Nat) (ev : Ev)
    (hmem : ev ∈ (DoDefaulting c name url dataDir path' s1 s2).2) :
    ev = Ev.find name ∨ ev = Ev.create ∨ ev = Ev.initAddress "localhost" := by
  unfold DoDefaulting at hmem
  cases hf : (if path' = "" then c.findPath else Except.ok path') with
  | error m =>
    rw [hf] at hmem
    simp only [] at hmem
    exact Or.inl (mem_findEvs name path' ev hmem)
  | ok pp =>
    rw [hf] at hmem
    cases hc : (if dataDir = "" then c.createDir else Except.ok dataDir) with
    | error m =>
      rw [hc] at hmem
      simp only [] at hmem
      rcases List.mem_append.1 hmem with h1 | h2
      · exact Or.inl (mem_findEvs name path' ev h1)
      · exact Or.inr (Or.inl (mem_createEvs dataDir ev h2))
    | ok d =>
      rw [hc] at hmem
      cases hu : (match url with
                  | some u => Except.ok u
                  | none => urlFromAddr c.initAddress) with
      | error m =>
        rw [hu] at hmem
        simp only [] at hmem
        rcases List.mem_append.1 hmem with h12 | h3
        · rcases List.mem_append.1 h12 with h1 | h2
          · exact Or.inl (mem_findEvs name path' ev h1)
          · exact Or.inr (Or.inl (mem_createEvs dataDir ev h2))
        · exact Or.inr (Or.inr (mem_addrEvs url ev h3))
      | ok u =>
        rw [hu] at hmem
        simp only [] at hmem
        rcases List.mem_append.1 hmem with h12 | h3
        · rcases List.mem_append.1 h12 with h1 | h2
          · exact Or.inl (mem_findEvs name path' ev h1)
          · exact Or.inr (Or.inl (mem_createEvs dataDir ev h2))
        · exact Or.inr (Or.inr (mem_addrEvs url ev h3))

/-- No event of the defaulting stage is a process-starter invocation. -/
lemma dd_trace_no_starter (c : Collab) (name : String) (url : Option Url)
    (dataDir path' : String) (s1 s2 : Nat) (ev : Ev)
    (hmem : ev ∈ (DoDefaulting c name url dataDir path' s1 s2).2) :
    Ev.isStarterCall ev = false := by
  rcases dd_ev_shape c name url dataDir path' s1 s2 ev hmem with h | h | h <;>
    rw [h] <;> rfl

/-- If no URL is configured and the AddressManager allocates `(p, h)`,
a successful defaulting run resolves the URL to exactly that address. -/
lemma dd_url_of_addr (c : Collab) (name : String) (dataDir path' : String)
    (s1 s2 : Nat) (p : Nat) (h : String) (input : DefaultedProcessInput)
    (haddr : c.initAddress = Except.ok (p, h))
    (hdd : (DoDefaulting c name none dataDir path' s1 s2).1 = Except.ok input) :
    input.url = { host := h, port := p } := by
  unfold DoDefaulting at hdd
  cases hf : (if path' = "" then c.findPath else Except.ok path') with
  | error m => rw [hf] at hdd; simp at hdd
  | ok pp =>
    rw [hf] at hdd
    cases hc : (if dataDir = "" then c.createDir else Except.ok dataDir) with
    | error m => rw [hc] at hdd; simp at hdd
    | ok d =>
      rw [hc] at hdd
      simp only [urlFromAddr, haddr] at hdd
      cases hdd
      rfl

/-- C6: when no URL is configured and the AddressManager allocates
`(p, h)`, any process-starter invocation of Start carries an argument
list that contains the exact strings
`--advertise-client-urls=http://h:p` and `--listen-client-urls=http://h:p`. -/
theorem etcd_start_renders_client_urls (c : Collab) (e : Etcd)
    (p : Nat) (h : String) (pa : String) (args : List String) (ok : Bool)
    (hurl : e.url = none)
    (hextra : e.clusterConfig.extraArgs = [])
    (haddr : c.initAddress = Except.ok (p, h))
    (hmem : Ev.spawn pa args ok ∈ (e.start c).2.2) :
    ("--advertise-client-urls=http://" ++ h ++ ":" ++ toString p) ∈ args
    ∧ ("--listen-client-urls=http://" ++ h ++ ":" ++ toString p) ∈ args := by
  cases hdd : (DoDefaulting c "etcd" e.url e.clusterConfig.dataDir e.path
      e.startTimeout e.stopTimeout).1 with
  | error m =>
    simp only [Etcd.start, hdd] at hmem
    have hflat := dd_trace_no_starter c "etcd" e.url e.clusterConfig.dataDir
      e.path e.startTimeout e.stopTimeout _ hmem
    simp [Ev.isStarterCall] at hflat
  | ok input =>
    have hu : input.url = { host := h, port := p } := by
      rw [hurl] at hdd
      exact dd_url_of_addr c "etcd" e.clusterConfig.dataDir e.path
        e.startTimeout e.stopTimeout p h input haddr hdd
    cases hr : RenderTemplates (DoEtcdArgDefaulting e.clusterConfig.extraArgs)
        input.url.toStr input.dir with
    | error m =>
      simp only [Etcd.start, hdd, hr] at hmem
      have hflat := dd_trace_no_starter c "etcd" e.url e.clusterConfig.dataDir
        e.path e.startTimeout e.stopTimeout _ hmem
      simp [Ev.isStarterCall] at hflat
    | ok rendered =>
      simp only [Etcd.start, hdd, hr] at hmem
      rcases List.mem_append.1 hmem with hm1 | hm2
      · have hflat := dd_trace_no_starter c "etcd" e.url e.clusterConfig.dataDir
          e.path e.startTimeout e.stopTimeout _ hm1
        simp [Ev.isStarterCall] at hflat
      · have hargs : args = rendered := by
          cases hst : c.starter input.path rendered with
          | error m2 =>
            simp [ProcessState.startProc, hst] at hm2
            exact hm2.2.1
          | ok s =>
            by_cases hc : containsSub (GetEtcdStartMessage input.url) s.output
            · simp [ProcessState.startProc, hst, hc] at hm2
              exact hm2.2.1
            · simp [ProcessState.startProc, hst, hc] at hm2
              exact hm2.2.1
        have hrv : rendered
            = ["--advertise-client-urls=" ++ input.url.toStr,
               "--listen-client-urls=" ++ input.url.toStr,
               "--data-dir=" ++ input.dir] := by
          rw [hextra] at hr
          simp [DoEtcdArgDefaulting, EtcdDefaultArgsInternal, RenderTemplates,
            renderOne, renderPiece] at hr
          exact hr.symm
        have h1 := flag_url_str "--advertise-client-urls="
          "--advertise-client-urls=http://" h p rfl
        have h2 := flag_url_str "--listen-client-urls="
          "--listen-client-urls=http://" h p rfl
        rw [hargs, hrv, hu, ← h1, ← h2]
        constructor
        · exact List.mem_cons_self _ _
        · exact List.mem_cons_of_mem _ (List.mem_cons_self _ _)

/-- Collaborators allocating the concrete address of etcd_test.go. -/
def cClientUrls : Collab :=
  { cAllGood with initAddress := .ok (1234, "this.is.etcd.listening.for.clients") }

/-- The argument list Start renders for that address. -/
def renderedClientUrls : List String :=
  ["--advertise-client-urls=http://this.is.etcd.listening.for.clients:1234",
   "--listen-client-urls=http://this.is.etcd.listening.for.clients:1234",
   "--data-dir=/tmp/d"]

/-- Witness for C6: the concrete scenario of etcd_test.go,
`Initialize` returning `(1234, "this.is.etcd.listening.for.clients")`. -/
theorem etcd_start_renders_client_urls_witness :
    "--advertise-client-urls=http://this.is.etcd.listening.for.clients:1234"
      ∈ renderedClientUrls
    ∧ "--listen-client-urls=http://this.is.etcd.listening.for.clients:1234"
      ∈ renderedClientUrls :=
  etcd_start_renders_client_urls cClientUrls initialEtcd 1234
    "this.is.etcd.listening.for.clients" "/path/to/some/etcd"
    renderedClientUrls true rfl rfl (by rfl) (by decide)

/-- Helper: the defaulting stage never invokes the process starter. -/
lemma dd_trace_starterCalls (c : Collab) (name : String) (url : Option Url)
    (dataDir path' : String) (s1 s2 : Nat) :
    starterCalls (DoDefaulting c name url dataDir path' s1 s2).2 = 0 := by
  simp only [starterCalls, List.length_eq_zero, List.filter_eq_nil_iff]
  intro ev hmem
  rw [dd_trace_no_starter c name url dataDir path' s1 s2 ev hmem]
  simp

/-- C1: every failure before the spawn stage (path resolution, data-dir
creation, address allocation, template rendering) makes Start return the
underlying error unchanged without ever invoking the process starter,
and a failing spawn makes Start return the starter's error unchanged. -/
theorem etcd_start_error_propagation (c : Collab) (e : Etcd) (m : String) :
    (e.path = "" → c.findPath = Except.error m →
      (e.start c).1 = Except.error m ∧ starterCalls (e.start c).2.2 = 0)
    ∧ ((e.path = "" → ∃ pp, c.findPath = Except.ok pp) →
      e.clusterConfig.dataDir = "" → c.createDir = Except.error m →
      (e.start c).1 = Except.error m ∧ starterCalls (e.start c).2.2 = 0)
    ∧ ((e.path = "" → ∃ pp, c.findPath = Except.ok pp) →
      (e.clusterConfig.dataDir = "" → ∃ d, c.createDir = Except.ok d) →
      e.url = none → c.initAddress = Except.error m →
      (e.start c).1 = Except.error m ∧ starterCalls (e.start c).2.2 = 0)
    ∧ (∀ input, (DoDefaulting c "etcd" e.url e.clusterConfig.dataDir e.path
        e.startTimeout e.stopTimeout).1 = Except.ok input →
      RenderTemplates (DoEtcdArgDefaulting e.clusterConfig.extraArgs)
        input.url.toStr input.dir = Except.error m →
      (e.start c).1 = Except.error m ∧ starterCalls (e.start c).2.2 = 0)
    ∧ (∀ input rendered,
      (DoDefaulting c "etcd" e.url e.clusterConfig.dataDir e.path
        e.startTimeout e.stopTimeout).1 = Except.ok input →
      RenderTemplates (DoEtcdArgDefaulting e.clusterConfig.extraArgs)
        input.url.toStr input.dir = Except.ok rendered →
      c.starter input.path rendered = Except.error m →
      (e.start c).1 = Except.error m) := by
  refine ⟨?_, ?_, ?_, ?_, ?_⟩
  · intro hp hf
    have hdd1 : (DoDefaulting c "etcd" e.url e.clusterConfig.dataDir e.path
        e.startTimeout e.stopTimeout).1 = Except.error m := by
      unfold DoDefaulting
      simp [hp, hf]
    simp [Etcd.start, hdd1, dd_trace_starterCalls]
  · intro hfp hdir hcreate
    have hdd1 : (DoDefaulting c "etcd" e.url e.clusterConfig.dataDir e.path
        e.startTimeout e.stopTimeout).1 = Except.error m := by
      unfold DoDefaulting
      by_cases hp : e.path = ""
      · obtain ⟨pp, hfind⟩ := hfp hp
        simp [hp, hfind, hdir, hcreate]
      · simp [hp, hdir, hcreate]
    simp [Etcd.start, hdd1, dd_trace_starterCalls]
  · intro hfp hdp hurl haddr
    have hdd1 : (DoDefaulting c "etcd" e.url e.clusterConfig.dataDir e.path
        e.startTimeout e.stopTimeout).1 = Except.error m := by
      unfold DoDefaulting
      rw [hurl]
      by_cases hp : e.path = ""
      · obtain ⟨pp, hfind⟩ := hfp hp
        by_cases hd : e.clusterConfig.dataDir = ""
        · obtain ⟨d, hcr⟩ := hdp hd
          simp [hp, hfind, hd, hcr, urlFromAddr, haddr]
        · simp [hp, hfind, hd, urlFromAddr, haddr]
      · by_cases hd : e.clusterConfig.dataDir = ""
        · obtain ⟨d, hcr⟩ := hdp hd
          simp [hp, hd, hcr, urlFromAddr, haddr]
        · simp [hp, hd, urlFromAddr, haddr]
    simp [Etcd.start, hdd1, dd_trace_starterCalls]
  · intro input hdd hr
    simp [Etcd.start, hdd, hr, dd_trace_starterCalls]
  · intro input rendered hdd hr hst
    simp [Etcd.start, hdd, hr, ProcessState.startProc, hst]

/-- Collaborators whose path resolution fails. -/
def cFindErr : Collab :=
  { cAllGood with findPath := .error "no etcd binary" }

/-- Collaborators whose data-dir creation fails. -/
def cCreateErr : Collab :=
  { cAllGood with createDir := .error "Error on directory creation." }

/-- Collaborators whose address allocation fails. -/
def cAddrErr : Collab :=
  { cAllGood with initAddress := .error "some error finding a free port" }

/-- Collaborators whose process starter fails. -/
def cStarterErr : Collab :=
  { cAllGood with starter := fun _ _ => .error "Some error in the starter." }

/-- A supervisor configured with an argument template holding an unknown
placeholder, so rendering fails. -/
def eBadTemplate : Etcd :=
  { initialEtcd with
    clusterConfig := { dataDir := "", extraArgs := [[TmplPiece.unknownVar "Foo"]] } }

/-- Witness for C1: each failing stage exercised on concrete
collaborators (the messages of etcd_test.go). -/
theorem etcd_start_error_propagation_witness :
    ((initialEtcd.start cFindErr).1 = Except.error "no etcd binary"
      ∧ starterCalls (initialEtcd.start cFindErr).2.2 = 0)
    ∧ ((initialEtcd.start cCreateErr).1
          = Except.error "Error on directory creation."
      ∧ starterCalls (initialEtcd.start cCreateErr).2.2 = 0)
    ∧ ((initialEtcd.start cAddrErr).1
          = Except.error "some error finding a free port"
      ∧ starterCalls (initialEtcd.start cAddrErr).2.2 = 0)
    ∧ ((eBadTemplate.start cAllGood).1 = Except.error "unknown placeholder: Foo"
      ∧ starterCalls (eBadTemplate.start cAllGood).2.2 = 0)
    ∧ (initialEtcd.start cStarterErr).1
        = Except.error "Some error in the starter." :=
  ⟨(etcd_start_error_propagation cFindErr initialEtcd "no etcd binary").1
      rfl (by rfl),
   (etcd_start_error_propagation cCreateErr initialEtcd
      "Error on directory creation.").2.1
      (fun _ => ⟨"/path/to/some/etcd", by rfl⟩) rfl (by rfl),
   (etcd_start_error_propagation cAddrErr initialEtcd
      "some error finding a free port").2.2.1
      (fun _ => ⟨"/path/to/some/etcd", by rfl⟩)
      (fun _ => ⟨"/tmp/d", by rfl⟩) rfl (by rfl),
   (etcd_start_error_propagation cAllGood eBadTemplate
      "unknown placeholder: Foo").2.2.2.1 inputAllGood (by rfl) (by rfl),
   (etcd_start_error_propagation cStarterErr initialEtcd
      "Some error in the starter.").2.2.2.2 inputAllGood renderedAllGood
      (by rfl) (by rfl) (by rfl)⟩

/-- Successful-spawn counts distribute over trace concatenation. -/
lemma spawnCount_append (a b : List Ev) :
    spawnCount (a ++ b) = spawnCount a + spawnCount b := by
  simp [spawnCount, List.filter_append]

/-- Terminate counts distribute over trace concatenation. -/
lemma termCount_append (a b : List Ev) :
    termCount (a ++ b) = termCount a + termCount b := by
  simp [termCount, List.filter_append]

/-- The defaulting stage spawns no process. -/
lemma dd_trace_spawnCount (c : Collab) (name : String) (url : Option Url)
    (dataDir path' : String) (s1 s2 : Nat) :
    spawnCount (DoDefaulting c name url dataDir path' s1 s2).2 = 0 := by
  simp only [spawnCount, List.length_eq_zero, List.filter_eq_nil_iff]
  intro ev hmem
  rcases dd_ev_shape c name url dataDir path' s1 s2 ev hmem with h | h | h <;>
    rw [h] <;> simp [Ev.isSpawnOk]

/-- The defaulting stage terminates no process. -/
lemma dd_trace_termCount (c : Collab) (name : String) (url : Option Url)
    (dataDir path' : String) (s1 s2 : Nat) :
    termCount (DoDefaulting c name url dataDir path' s1 s2).2 = 0 := by
  simp only [termCount, List.length_eq_zero, List.filter_eq_nil_iff]
  intro ev hmem
  rcases dd_ev_shape c name url dataDir path' s1 s2 ev hmem with h | h | h <;>
    rw [h] <;> simp [Ev.isTerm]

/-- Start spawns exactly one process when it leaves a session owned, and
none otherwise; it never terminates a process. -/
lemma start_counts (c : Collab) (e : Etcd) :
    spawnCount (e.start c).2.2 = (if sessLive (e.start c).2.1 then 1 else 0)
    ∧ termCount (e.start c).2.2 = 0 := by
  cases hdd : (DoDefaulting c "etcd" e.url e.clusterConfig.dataDir e.path
      e.startTimeout e.stopTimeout).1 with
  | error m =>
    simp [Etcd.start, hdd, sessLive, sessionOf, ProcessState.empty,
      dd_trace_spawnCount, dd_trace_termCount]
  | ok input =>
    cases hr : RenderTemplates (DoEtcdArgDefaulting e.clusterConfig.extraArgs)
        input.url.toStr input.dir with
    | error m =>
      simp [Etcd.start, hdd, hr, sessLive, sessionOf, ProcessState.empty,
        dd_trace_spawnCount, dd_trace_termCount]
    | ok rendered =>
      have hdds := dd_trace_spawnCount c "etcd" e.url e.clusterConfig.dataDir
        e.path e.startTimeout e.stopTimeout
      have hddt := dd_trace_termCount c "etcd" e.url e.clusterConfig.dataDir
        e.path e.startTimeout e.stopTimeout
      cases hst : c.starter input.path rendered with
      | error m2 =>
        simp only [Etcd.start, hdd, hr, ProcessState.startProc, hst,
          spawnCount_append, termCount_append, hdds, hddt]
        simp [sessLive, sessionOf, spawnCount, termCount, Ev.isSpawnOk,
          Ev.isTerm]
      | ok s =>
        by_cases hc : containsSub (GetEtcdStartMessage input.url) s.output <;>
          simp only [Etcd.start, hdd, hr, ProcessState.startProc, hst, hc,
            if_true, if_false, spawnCount_append, termCount_append, hdds,
            hddt] <;>
          simp [hc, sessLive, sessionOf, spawnCount, termCount, Ev.isSpawnOk,
            Ev.isTerm]

/-- Stop terminates exactly the owned live session (if any), spawns
nothing, and always leaves the supervisor without a live session. -/
lemma stop_counts (c : Collab) (e : Etcd) :
    termCount (e.stop c).2.2 = (if sessLive e then 1 else 0)
    ∧ spawnCount (e.stop c).2.2 = 0
    ∧ sessLive (e.stop c).2.1 = false := by
  cases hps : e.processState with
  | none =>
    simp [Etcd.stop, hps, sessLive, sessionOf, termCount, spawnCount]
  | some ps =>
    cases hs : ps.session with
    | none =>
      simp [Etcd.stop, ProcessState.stopProc, hps, hs, sessLive, sessionOf,
        termCount, spawnCount]
    | some s =>
      cases hd : c.destroyDir with
      | error m =>
        simp [Etcd.stop, ProcessState.stopProc, hps, hs, hd, sessLive,
          sessionOf, termCount, spawnCount, Ev.isTerm, Ev.isSpawnOk]
      | ok u =>
        simp [Etcd.stop, ProcessState.stopProc, hps, hs, hd, sessLive,
          sessionOf, termCount, spawnCount, Ev.isTerm, Ev.isSpawnOk]

/-- Balance invariant: along a stop-separated call sequence, every
successful spawn is matched by a terminate, except the one session
currently owned. -/
lemma seq_balance (c : Collab) : ∀ (ops : List Op) (e : Etcd) (b : Bool),
    stopSepAux b ops = true → (sessLive e = true → b = true) →
    spawnCount (runSeq c e ops).2 + (if sessLive e then 1 else 0)
      = termCount (runSeq c e ops).2
        + (if sessLive (runSeq c e ops).1 then 1 else 0) := by
  intro ops
  induction ops with
  | nil =>
    intro e b _ _
    simp [runSeq, spawnCount, termCount]
  | cons op rest ih =>
    intro e b hsep hlive
    cases op with
    | start =>
      cases b with
      | true => simp [stopSepAux] at hsep
      | false =>
        have hse : sessLive e = false := by
          cases hse : sessLive e with
          | false => rfl
          | true => exact absurd (hlive hse) (by simp)
        have hsep2 : stopSepAux true rest = true := by
          simpa [stopSepAux] using hsep
        have ih2 := ih ((e.start c).2.1) true hsep2 (fun _ => rfl)
        obtain ⟨hsc, htc⟩ := start_counts c e
        have hrw : runSeq c e (Op.start :: rest)
            = ((runSeq c ((e.start c).2.1) rest).1,
               (e.start c).2.2 ++ (runSeq c ((e.start c).2.1) rest).2) := by
          simp [runSeq, runOp]
        rw [hrw]
        simp only [spawnCount_append, termCount_append, hsc, htc, hse]
        cases h1 : sessLive ((e.start c).2.1) <;>
          rw [h1] at ih2 <;>
          cases hfin : sessLive ((runSeq c ((e.start c).2.1) rest).1) <;>
          rw [hfin] at ih2 <;> simp at ih2 ⊢ <;> omega
    | stop =>
      have hsep2 : stopSepAux false rest = true := by
        cases b <;> simpa [stopSepAux] using hsep
      obtain ⟨htc, hsc, hlv⟩ := stop_counts c e
      have ih2 := ih ((e.stop c).2.1) false hsep2 (by rw [hlv]; simp)
      have hrw : runSeq c e (Op.stop :: rest)
          = ((runSeq c ((e.stop c).2.1) rest).1,
             (e.stop c).2.2 ++ (runSeq c ((e.stop c).2.1) rest).2) := by
        simp [runSeq, runOp]
      rw [hrw]
      simp only [spawnCount_append, termCount_append, hsc, htc]
      rw [hlv] at ih2
      cases hse : sessLive e <;>
        cases hfin : sessLive ((runSeq c ((e.stop c).2.1) rest).1) <;>
        rw [hfin] at ih2 <;> simp at ih2 ⊢ <;> omega

/-- Counterexample to C8: two consecutive successful Starts spawn two
processes and terminate none — the first process is orphaned and two
processes are live at once. -/
theorem etcd_double_start_orphans :
    spawnCount (runSeq cAllGood initialEtcd [Op.start, Op.start]).2 = 2
    ∧ termCount (runSeq cAllGood initialEtcd [Op.start, Op.start]).2 = 0
    ∧ ¬ (spawnCount (runSeq cAllGood initialEtcd [Op.start, Op.start]).2
        ≤ termCount (runSeq cAllGood initialEtcd [Op.start, Op.start]).2 + 1) := by
  refine ⟨by decide, by decide, by decide⟩

/-- C8 (amended): along any sequence of Start and Stop calls in which no
second Start occurs without an intervening Stop, every spawned process
except the one possibly still owned has been terminated — so at most one
process is live at any time. -/
theorem etcd_single_live_session_stop_separated (c : Collab) (ops : List Op)
    (h : stopSeparated ops = true) :
    spawnCount (runSeq c initialEtcd ops).2
      = termCount (runSeq c initialEtcd ops).2
        + (if sessLive (runSeq c initialEtcd ops).1 then 1 else 0)
    ∧ spawnCount (runSeq c initialEtcd ops).2
        ≤ termCount (runSeq c initialEtcd ops).2 + 1 := by
  have h0 : sessLive initialEtcd = false := rfl
  have hb := seq_balance c ops initialEtcd false h (by rw [h0]; simp)
  have hz : (if sessLive initialEtcd then 1 else 0) = 0 := rfl
  rw [hz] at hb
  by_cases hfin : sessLive (runSeq c initialEtcd ops).1 = true
  · rw [if_pos hfin] at hb ⊢
    constructor <;> omega
  · rw [if_neg hfin] at hb ⊢
    constructor <;> omega

/-- Witness for the amended C8: a concrete Start-then-Stop run is
balanced — one spawn, one terminate, no live session left. -/
theorem etcd_single_live_session_stop_separated_witness :
    spawnCount (runSeq cAllGood initialEtcd [Op.start, Op.stop]).2
      = termCount (runSeq cAllGood initialEtcd [Op.start, Op.stop]).2
        + (if sessLive (runSeq cAllGood initialEtcd [Op.start, Op.stop]).1
           then 1 else 0)
    ∧ spawnCount (runSeq cAllGood initialEtcd [Op.start, Op.stop]).2
        ≤ termCount (runSeq cAllGood initialEtcd [Op.start, Op.stop]).2 + 1 :=
  etcd_single_live_session_stop_separated cAllGood [Op.start, Op.stop] rfl

end EtcdSup
